import Mathlib

/-!
Verification of the WordReference albert plugin (`__init__.py`).

The embedding models the query parsing, translation-session caching and
result-tree flattening pipeline of `Plugin`.  Python dicts with `.get`
defaults become structures with `Option` fields, the defaults applied at
the use sites exactly as the source does; Python string falsiness
(`if s:`) becomes `s ≠ ""`; `str.lower()` is modelled by `pyLower`
(ASCII case folding); object identity of `WordReference` instances is
modelled by a creation stamp drawn from a counter in the plugin state.
-/

namespace WR

/-- One `to_word` element of an entry: `{meaning, grammar, notes}`,
each key possibly missing (the source reads them with `.get(_, "")`). -/
structure ToWord where
  meaning : Option String
  grammar : Option String
  notes : Option String
  deriving DecidableEq, Repr

/-- The `from_word` dict of an entry: `{source, grammar}`. -/
structure FromWord where
  source : Option String
  grammar : Option String
  deriving DecidableEq, Repr

/-- An entry of a translation section, as read by the source with
`.get` accessors (`context`, `from_word`, `from_example`, `to_word`,
`to_example`). -/
structure Entry where
  context : Option String
  from_word : Option FromWord
  from_example : Option String
  to_word : Option (List ToWord)
  to_example : Option (List String)
  deriving DecidableEq, Repr

/-- A translation section: `{title, entries}`; the source reads
`section.get("title", f"Section {i+1}")` and `section.get("entries", [])`. -/
structure Section where
  title : Option String
  entries : Option (List Entry)
  deriving DecidableEq, Repr

/-- The result returned by `WordReference.translate`: `word`, `from_lang`,
`to_lang` (always present in a well-formed result), an optional `url`
(read with `.get("url", "")`) and the `translations` key which may be
missing (`"translations" not in result`). -/
structure TranslationResult where
  word : String
  from_lang : String
  to_lang : String
  url : Option String
  translations : Option (List Section)
  deriving DecidableEq, Repr

/-- A registry value of `get_available_dicts()`: a from-name and a to-name. -/
structure DictDetail where
  fromName : String
  toName : String
  deriving DecidableEq, Repr

/-- The effect of an `Action`: copy text to the clipboard
(`setClipboardText`) or open a URL (`openUrl`). -/
inductive Effect where
  | copy (payload : String)
  | openUrl (url : String)
  deriving DecidableEq, Repr

/-- An albert `Action`: internal name, user-visible label, effect. -/
structure Action where
  name : String
  label : String
  effect : Effect
  deriving DecidableEq, Repr

/-- A `StandardItem` as the plugin builds them: id, text (headline),
subtext (detail), optional `inputActionText` and a list of actions.
The icon URL is the same constant on every item and is omitted. -/
structure Item where
  id : String
  text : String
  subtext : String
  inputActionText : Option String
  actions : List Action
  deriving DecidableEq, Repr

/-- A cached `WordReference` session: the language pair it was built for
plus a creation stamp modelling Python object identity. -/
structure Session where
  lang_pair : String
  stamp : Nat
  deriving DecidableEq, Repr

/-- The mutable plugin state: `self.wr_instances` (a dict, modelled as an
insertion-ordered association list) and the fresh-identity counter. -/
structure PState where
  wr_instances : List (String × Session)
  counter : Nat
  deriving DecidableEq, Repr

/-- Dict lookup on an association list (Python `d[k]` / `k in d`). -/
def lookupDict {α : Type} (l : List (String × α)) (k : String) : Option α :=
  (l.find? (fun p => p.1 == k)).map (fun p => p.2)

/-- Models `self.wr_instances[lang_pair]` with the create-on-miss of
`_translate` lines 155-157: on a miss a fresh `WordReference(lang_pair)`
is constructed and stored; on a hit the stored instance is returned and
the state is unchanged. -/
def getOrCreate (st : PState) (code : String) : Session × PState :=
  match lookupDict st.wr_instances code with
  | some s => (s, st)
  | none =>
      let s : Session := ⟨code, st.counter⟩
      (s, ⟨st.wr_instances ++ [(code, s)], st.counter + 1⟩)

/-- Python `str.lower()` (ASCII case folding), mapped over the chars. -/
def pyLower (s : String) : String :=
  ⟨s.toList.map Char.toLower⟩

/-- The skip test of `_translate` lines 209-214:
`entry.get("from_word", {}).get("source", "").lower() == text.lower()`. -/
def echoesQuery (ent : Entry) (text : String) : Bool :=
  pyLower ((ent.from_word.getD ⟨none, none⟩).source.getD "") == pyLower text

/-- Models `section.get("title", f"Section {section_idx + 1}")`. -/
def titleOf (sIdx : Nat) (sec : Section) : String :=
  sec.title.getD ("Section " ++ toString (sIdx + 1))

/-- One result `StandardItem`, built exactly as `_translate` lines
217-311 builds it for the `to_word` at index `tIdx` of entry `ent`
(at section index `sIdx`, entry index `eIdx`). -/
def mkResultItem (sIdx eIdx tIdx : Nat) (ent : Entry)
    (title url text : String) (w : ToWord) : Item :=
  let context := ent.context.getD ""
  let fw := ent.from_word.getD ⟨none, none⟩
  let source := fw.source.getD text
  let from_grammar := fw.grammar.getD ""
  let from_example := ent.from_example.getD ""
  let to_examples := ent.to_example.getD []
  let meaning := w.meaning.getD ""
  let notes := w.notes.getD ""
  let grammar := w.grammar.getD ""
  -- source_with_grammar = f"{source}"; if from_grammar: += f" {from_grammar}"
  let source_with_grammar := if from_grammar ≠ "" then source ++ " " ++ from_grammar else source
  -- target_with_grammar = f"{meaning}"; if grammar: += f" {grammar}"; if notes: += f" ({notes})"
  let target_with_grammar := if grammar ≠ "" then meaning ++ " " ++ grammar else meaning
  let target_with_grammar := if notes ≠ "" then target_with_grammar ++ " (" ++ notes ++ ")" else target_with_grammar
  let display_text := source_with_grammar ++ " → " ++ target_with_grammar
  let subtext_parts : List String := if context ≠ "" then [context] else []
  let example_parts : List String := if from_example ≠ "" then [from_example] else []
  -- if to_examples and to_idx < len(to_examples): example_parts.append(to_examples[to_idx])
  let example_parts := example_parts ++ (match to_examples[tIdx]? with
    | some ex => [ex]
    | none => [])
  let subtext_parts := if example_parts ≠ [] then subtext_parts ++ [String.intercalate " ⟹ " example_parts] else subtext_parts
  let subtext := if subtext_parts ≠ [] then String.intercalate "\n" subtext_parts else title
  let actions := [Action.mk "copy" "Copy translation" (Effect.copy meaning)]
  let actions := if url ≠ "" then actions ++ [Action.mk "open" "Open in browser" (Effect.openUrl url)] else actions
  { id := "translator_result_" ++ toString sIdx ++ "_" ++ toString eIdx ++ "_" ++ toString tIdx
    text := display_text
    subtext := subtext
    inputActionText := none
    actions := actions }

/-- The inner `for to_idx, to_word in enumerate(to_words)` loop:
one item per `to_word` element, indices counted from `t`. -/
def toWordItems (sIdx eIdx : Nat) (ent : Entry) (title url text : String) :
    Nat → List ToWord → List Item
  | _, [] => []
  | t, w :: rest =>
      mkResultItem sIdx eIdx t ent title url text w
        :: toWordItems sIdx eIdx ent title url text (t + 1) rest

/-- All items an entry contributes (its `to_word` loop from index 0). -/
def entryItems (sIdx eIdx : Nat) (ent : Entry) (title url text : String) : List Item :=
  toWordItems sIdx eIdx ent title url text 0 (ent.to_word.getD [])

/-- The `for entry_idx, entry in enumerate(section.get("entries", []))`
loop, with the first-entry skip (`continue`) of lines 208-215. -/
def entriesRecords (sIdx : Nat) (title url text : String) :
    Nat → List Entry → List Item
  | _, [] => []
  | e, ent :: rest =>
      (if sIdx == 0 && e == 0 && echoesQuery ent text then []
       else entryItems sIdx e ent title url text)
        ++ entriesRecords sIdx title url text (e + 1) rest

/-- The `for section_idx, section in enumerate(result["translations"])` loop. -/
def sectionsRecords (text url : String) : Nat → List Section → List Item
  | _, [] => []
  | s, sec :: rest =>
      entriesRecords s (titleOf s sec) url text 0 (sec.entries.getD [])
        ++ sectionsRecords text url (s + 1) rest

/-- The whole flattening of `result["translations"]` into result items
(`_translate` lines 203-311). -/
def flattenSections (sections : List Section) (text url : String) : List Item :=
  sectionsRecords text url 0 sections

/-- The single error item of the `except` handler (lines 321-335):
`text="Translation error"`, `subtext=str(e)`, one copy action whose
payload is `str(e)`. -/
def errorItem (e : String) : Item :=
  { id := "translator_error"
    text := "Translation error"
    subtext := e
    inputActionText := none
    actions := [Action.mk "copy" "Copy error" (Effect.copy e)] }

/-- The no-results item (lines 173-185) for a present result dict. -/
def noResultsItem (text : String) (r : TranslationResult) : Item :=
  { id := "translator_no_results"
    text := "No translation results found"
    subtext := "Could not translate \u0027" ++ text ++ "\u0027 from "
      ++ r.from_lang ++ " to " ++ r.to_lang
    inputActionText := none
    actions := [Action.mk "retry" "Try again" (Effect.copy text)] }

/-- The message `str(e)` of the `AttributeError` raised when the no-results branch
evaluates `result.get('from_lang', '')` while `result` is `None`. -/
def pyNoneGetMsg : String :=
  "\u0027NoneType\u0027 object has no attribute \u0027get\u0027"

/-- Models `Plugin._translate` (lines 149-335): get or create the session for
`lang_pair`, call `translate(text)` (the oracle `tr`), then either the
error item (the `except` handler), the no-results item, or the flattened
result items.  When `translate` returns `None`, the truthiness guard at
line 171 fires but building the no-results item dereferences `None`
(`result.get('from_lang', '')`), raising an `AttributeError` that the
handler turns into the error item. -/
def translateQuery (lang_pair text : String)
    (tr : String → String → Except String (Option TranslationResult))
    (st : PState) : List Item × PState :=
  let st' := (getOrCreate st lang_pair).2
  match tr lang_pair text with
  | .error e => ([errorItem e], st')
  | .ok none => ([errorItem pyNoneGetMsg], st')
  | .ok (some r) =>
      match r.translations with
      | none => ([noResultsItem text r], st')
      | some [] => ([noResultsItem text r], st')
      | some sections => (flattenSections sections text (r.url.getD ""), st')

/-- Python whitespace for `str.strip` / `str.split` (ASCII subset:
space, tab, newline, carriage return, vertical tab, form feed). -/
def isPySpace (c : Char) : Bool :=
  c == ' ' || c == '\t' || c == '\n' || c == '\r'
    || c == Char.ofNat 11 || c == Char.ofNat 12

/-- Python `str.strip()`: drop leading and trailing whitespace. -/
def pyStrip (s : String) : String :=
  ⟨((s.toList.dropWhile isPySpace).reverse.dropWhile isPySpace).reverse⟩

/-- Python `str.split(maxsplit=1)`: at most two pieces, split on the
first whitespace run; leading whitespace ignored, the remainder kept
verbatim after the separator run; `[]` on an all-whitespace string. -/
def pySplitMax1 (s : String) : List String :=
  let cs := s.toList.dropWhile isPySpace
  if cs.isEmpty then []
  else
    let tok := cs.takeWhile (fun c => !isPySpace c)
    let rest := (cs.dropWhile (fun c => !isPySpace c)).dropWhile isPySpace
    if rest.isEmpty then [⟨tok⟩] else [⟨tok⟩, ⟨rest⟩]

/-- The header usage item of `_show_usage` (lines 69-82). -/
def usageHeader (trigger : String) : Item :=
  { id := "translator_usage"
    text := "WordReference Translation"
    subtext := "Format: [language_pair] [word] (e.g., \u0027enfr hello\u0027)"
    inputActionText := some (trigger ++ "enfr ")
    actions := [Action.mk "copy" "Copy format" (Effect.copy "enfr hello")] }

/-- The curated example list of `_show_usage` (lines 85-90). -/
def usageExamples : List (String × String) :=
  [("enfr hello", "English to French"),
   ("fren bonjour", "French to English"),
   ("ende computer", "English to German"),
   ("esen gracias", "Spanish to English")]

/-- One example item of the `for i, (example, desc)` loop (lines 92-108). -/
def exampleItem (trigger : String) (i : Nat) (p : String × String) : Item :=
  { id := "translator_example_" ++ toString i
    text := "Example: " ++ p.1
    subtext := p.2
    inputActionText := some (trigger ++ p.1)
    actions := [Action.mk "use" "Use this example" (Effect.copy (trigger ++ p.1))] }

/-- The enumerated example items. -/
def exampleItems (trigger : String) : Nat → List (String × String) → List Item
  | _, [] => []
  | i, p :: rest => exampleItem trigger i p :: exampleItems trigger (i + 1) rest

/-- Models `Plugin._show_usage`: the header item followed by the four examples. -/
def usageItems (trigger : String) : List Item :=
  usageHeader trigger :: exampleItems trigger 0 usageExamples

/-- The header item of `_show_invalid_language_pair` (lines 112-119). -/
def invalidPairItem (lang_pair : String) : Item :=
  { id := "translator_invalid_pair"
    text := "Invalid language pair: " ++ lang_pair
    subtext := "Please use one of the supported language pairs"
    inputActionText := none
    actions := [] }

/-- One suggested-pair item of `_show_invalid_language_pair` (131-146). -/
def pairItem (trigger : String) (code : String) (d : DictDetail) : Item :=
  { id := "translator_pair_" ++ code
    text := code ++ ": " ++ d.fromName ++ " to " ++ d.toName
    subtext := "Language pair for translating from " ++ d.fromName ++ " to " ++ d.toName
    inputActionText := some (trigger ++ code ++ " ")
    actions := [Action.mk "use" "Use this language pair" (Effect.copy (trigger ++ code ++ " "))] }

/-- The suggestion loop of `_show_invalid_language_pair` (lines 122-147):
stop once `count >= 10`, skip the denylisted codes `esca` and `ruen`
without counting, otherwise emit the pair item and count it. -/
def suggestionLoop (trigger : String) : List (String × DictDetail) → Nat → List Item
  | [], _ => []
  | (code, d) :: rest, count =>
      if 10 ≤ count then []
      else if code = "esca" ∨ code = "ruen" then suggestionLoop trigger rest count
      else pairItem trigger code d :: suggestionLoop trigger rest (count + 1)

/-- Models `Plugin._show_invalid_language_pair`: error header plus suggestions. -/
def invalidPairItems (trigger : String) (registry : List (String × DictDetail))
    (lang_pair : String) : List Item :=
  invalidPairItem lang_pair :: suggestionLoop trigger registry 0

/-- Models `Plugin.handleTriggerQuery` (lines 41-65): strip, dispatch to usage
on empty or malformed input, to the invalid-pair response when the
lower-cased code is not a key of `available_dicts`, and otherwise to
`_translate`.  Returns the emitted items and the updated plugin state. -/
def handleTriggerQuery (trigger raw : String)
    (registry : List (String × DictDetail))
    (tr : String → String → Except String (Option TranslationResult))
    (st : PState) : List Item × PState :=
  let query_str := pyStrip raw
  if query_str = "" then (usageItems trigger, st)
  else
    let parts := pySplitMax1 query_str
    if parts.length < 2 ∨ (parts[0]?.getD "").length ≠ 4 then (usageItems trigger, st)
    else
      let lang_pair := pyLower (parts[0]?.getD "")
      let text := parts[1]?.getD ""
      if lookupDict registry lang_pair = none then
        (invalidPairItems trigger registry lang_pair, st)
      else translateQuery lang_pair text tr st

/-! ### Spec-side definitions

The following definitions are written from the specification's words, to
be compared against the code-side definitions above. -/

/-- Spec formula for the headline (spec §4.4 rule 3): source, a space
and the from-grammar only when non-empty, the arrow, the meaning, a
space and the grammar only when non-empty, the notes in parentheses
only when non-empty. -/
def specHeadline (source from_grammar meaning grammar notes : String) : String :=
  source ++ (if from_grammar = "" then "" else " " ++ from_grammar)
    ++ " → "
    ++ meaning ++ (if grammar = "" then "" else " " ++ grammar)
    ++ (if notes = "" then "" else " (" ++ notes ++ ")")

/-- Spec formula for the detail (spec §4.4 rule 3): the context as the
first line when non-empty; an example line joining `from_example` (when
present) and the `to_example` at the meaning's index (when that index
exists) with the separator glyph; when neither exists, the section
title. -/
def specDetail (context from_example : String) (to_examples : List String)
    (i : Nat) (title : String) : String :=
  let exampleParts := (if from_example = "" then [] else [from_example])
    ++ (to_examples[i]?).toList
  let lines := (if context = "" then [] else [context])
    ++ (if exampleParts = [] then [] else [String.intercalate " ⟹ " exampleParts])
  if lines = [] then title else String.intercalate "\n" lines

/-- A positioned entry: section index, its section, entry index, the entry. -/
structure EPos where
  sIdx : Nat
  sec : Section
  eIdx : Nat
  ent : Entry
  deriving DecidableEq, Repr

/-- The positioned entries of one section, indices from `e`. -/
def entryPositions (s : Nat) (sec : Section) : Nat → List Entry → List EPos
  | _, [] => []
  | e, ent :: rest => ⟨s, sec, e, ent⟩ :: entryPositions s sec (e + 1) rest

/-- All positioned entries of all sections, section indices from `s`. -/
def allEntries : Nat → List Section → List EPos
  | _, [] => []
  | s, sec :: rest =>
      entryPositions s sec 0 (sec.entries.getD []) ++ allEntries (s + 1) rest

/-- Spec §4.4 rule 2: an entry is kept unless it is the very first entry
of the very first section and its `from_word.source` case-insensitively
equals the queried text. -/
def keepEntry (text : String) (p : EPos) : Bool :=
  !(p.sIdx == 0 && p.eIdx == 0 && echoesQuery p.ent text)

/-- Spec-side flattening: enumerate every entry of every section in
order, drop exactly those rejected by `keepEntry`, and let each kept
entry contribute its records in order. -/
def flattenSpec (sections : List Section) (text url : String) : List Item :=
  ((allEntries 0 sections).filter (keepEntry text)).flatMap
    (fun p => entryItems p.sIdx p.eIdx p.ent (titleOf p.sIdx p.sec) url text)

/-- A whole run of the plugin: fold a sequence of raw queries through
`handleTriggerQuery` (the only operation that touches the cache),
keeping the final plugin state. -/
def runQueries (trigger : String) (registry : List (String × DictDetail))
    (tr : String → String → Except String (Option TranslationResult))
    (st : PState) (raws : List String) : PState :=
  raws.foldl (fun st raw => (handleTriggerQuery trigger raw registry tr st).2) st

/-! ### Concrete instances used by counterexamples and witnesses -/

/-- The initial plugin state: empty session cache. -/
def pstate0 : PState := ⟨[], 0⟩

/-- The mocked result of the spec's first scenario (§8): one section
"Principal Translations", one entry with `from_word.source = "hello"`
and a single `to_word` meaning `"bonjour"`, no context or examples. -/
def scenarioResult : TranslationResult :=
  { word := "hello"
    from_lang := "English"
    to_lang := "French"
    url := none
    translations := some
      [{ title := some "Principal Translations"
         entries := some
           [{ context := none
              from_word := some ⟨some "hello", none⟩
              from_example := none
              to_word := some [⟨some "bonjour", none, none⟩]
              to_example := none }] }] }

/-- A registry containing the `enfr` pair used by the scenario. -/
def scenarioRegistry : List (String × DictDetail) :=
  [("enfr", ⟨"English", "French"⟩)]

/-- Mocked retrieval returning the scenario result. -/
def scenarioTr : String → String → Except String (Option TranslationResult) :=
  fun _ _ => .ok (some scenarioResult)

/-- The single record the scenario claim expects: headline
`"hello → bonjour"`, detail `"Principal Translations"`, copy payload
`"bonjour"`. -/
def claimedScenarioItem : Item :=
  { id := "translator_result_0_0_0"
    text := "hello → bonjour"
    subtext := "Principal Translations"
    inputActionText := none
    actions := [Action.mk "copy" "Copy translation" (Effect.copy "bonjour")] }

/-! ### Helper lemmas -/

/-- One section's entry loop equals the filtered positioned enumeration. -/
theorem entriesRecords_eq_filter (sec : Section) (s : Nat) (text url : String) :
    ∀ (es : List Entry) (e0 : Nat),
      entriesRecords s (titleOf s sec) url text e0 es
        = ((entryPositions s sec e0 es).filter (keepEntry text)).flatMap
            (fun p => entryItems p.sIdx p.eIdx p.ent (titleOf p.sIdx p.sec) url text)
  | [], _ => rfl
  | ent :: rest, e0 => by
      rw [entriesRecords, entryPositions, List.filter_cons]
      cases h : s == 0 && e0 == 0 && echoesQuery ent text with
      | true => simp [keepEntry, h, entriesRecords_eq_filter sec s text url rest (e0 + 1)]
      | false => simp [keepEntry, h, entriesRecords_eq_filter sec s text url rest (e0 + 1)]

/-- The whole section loop equals the filtered positioned enumeration. -/
theorem sectionsRecords_eq_filter (text url : String) :
    ∀ (sections : List Section) (s0 : Nat),
      sectionsRecords text url s0 sections
        = ((allEntries s0 sections).filter (keepEntry text)).flatMap
            (fun p => entryItems p.sIdx p.eIdx p.ent (titleOf p.sIdx p.sec) url text)
  | [], _ => rfl
  | sec :: rest, s0 => by
      rw [sectionsRecords, allEntries, List.filter_append, List.flatMap_append,
        entriesRecords_eq_filter sec s0 text url (sec.entries.getD []) 0,
        sectionsRecords_eq_filter text url rest (s0 + 1)]

/-- Items produced by the inner `to_word` loop are exactly the items of
the listed `to_word` elements, at their positional indices. -/
theorem mem_toWordItems {sIdx eIdx : Nat} {ent : Entry} {title url text : String}
    {it : Item} :
    ∀ (ws : List ToWord) (t0 : Nat), it ∈ toWordItems sIdx eIdx ent title url text t0 ws →
      ∃ k w, ws[k]? = some w ∧ it = mkResultItem sIdx eIdx (t0 + k) ent title url text w
  | [], _, h => absurd h (by simp [toWordItems])
  | w :: rest, t0, h => by
      rw [toWordItems] at h
      rcases List.mem_cons.mp h with h | h
      · exact ⟨0, w, by simp, by simpa using h⟩
      · obtain ⟨k, w', hk, hit⟩ := mem_toWordItems rest (t0 + 1) h
        exact ⟨k + 1, w', by simpa using hk, by rw [hit]; ring_nf⟩

/-- Items produced by the entry loop come from a listed entry, at its
positional index (skipped entries contribute nothing). -/
theorem mem_entriesRecords {sIdx : Nat} {title url text : String} {it : Item} :
    ∀ (es : List Entry) (e0 : Nat), it ∈ entriesRecords sIdx title url text e0 es →
      ∃ j ent, es[j]? = some ent ∧ it ∈ entryItems sIdx (e0 + j) ent title url text
  | [], _, h => absurd h (by simp [entriesRecords])
  | ent :: rest, e0, h => by
      rw [entriesRecords] at h
      rcases List.mem_append.mp h with h | h
      · refine ⟨0, ent, by simp, ?_⟩
        rcases Decidable.em ((sIdx == 0 && e0 == 0 && echoesQuery ent text) = true) with hc | hc
        · rw [if_pos hc] at h; exact absurd h (by simp)
        · rw [if_neg hc] at h; simpa using h
      · obtain ⟨j, ent', hj, hit⟩ := mem_entriesRecords rest (e0 + 1) h
        exact ⟨j + 1, ent', by simpa using hj, by rw [show e0 + (j + 1) = e0 + 1 + j by ring]; exact hit⟩

/-- Items produced by the section loop come from a listed section, at
its positional index. -/
theorem mem_sectionsRecords {text url : String} {it : Item} :
    ∀ (sections : List Section) (s0 : Nat), it ∈ sectionsRecords text url s0 sections →
      ∃ i sec, sections[i]? = some sec
        ∧ it ∈ entriesRecords (s0 + i) (titleOf (s0 + i) sec) url text 0 (sec.entries.getD [])
  | [], _, h => absurd h (by simp [sectionsRecords])
  | sec :: rest, s0, h => by
      rw [sectionsRecords] at h
      rcases List.mem_append.mp h with h | h
      · exact ⟨0, sec, by simp, by simpa using h⟩
      · obtain ⟨i, sec', hi, hit⟩ := mem_sectionsRecords rest (s0 + 1) h
        exact ⟨i + 1, sec', by simpa using hi,
          by rw [show s0 + (i + 1) = s0 + 1 + i by ring]; exact hit⟩

/-- Every flattened item is the result item built from some positioned
(section, entry, `to_word`) triple of the input. -/
theorem mem_flattenSections {sections : List Section} {text url : String} {it : Item}
    (h : it ∈ flattenSections sections text url) :
    ∃ i sec j ent k w, sections[i]? = some sec
      ∧ (sec.entries.getD [])[j]? = some ent
      ∧ (ent.to_word.getD [])[k]? = some w
      ∧ it = mkResultItem i j k ent (titleOf i sec) url text w := by
  obtain ⟨i, sec, hi, h⟩ := mem_sectionsRecords _ _ h
  obtain ⟨j, ent, hj, h⟩ := mem_entriesRecords _ _ h
  obtain ⟨k, w, hk, h⟩ := mem_toWordItems _ _ h
  exact ⟨i, sec, j, ent, k, w, by simpa using hi, by simpa using hj, hk, by simpa using h⟩

/-! ### Claim theorems -/

/-- C1: the flattening equals the spec-side flattening: enumerate every
entry of every section in order, drop exactly those entries rejected by
`keepEntry` — an entry is rejected only when it is the first entry of
the first section and its `from_word.source` case-insensitively equals
the queried text — and let every retained entry contribute its records. -/
theorem flatten_eq_flattenSpec (sections : List Section) (text url : String) :
    flattenSections sections text url = flattenSpec sections text url :=
  sectionsRecords_eq_filter text url sections 0

/-- C2 counterexample: on input `"enfr hello"` with the mocked scenario
result, the output is not the single claimed record `"hello → bonjour"`
(the first entry echoes the query and is skipped, so the output is
empty). -/
theorem scenario_output_not_claimed :
    (handleTriggerQuery "w " "enfr hello" scenarioRegistry scenarioTr pstate0).1
      ≠ [claimedScenarioItem] := by decide

/-- C2 amended: on input `"enfr hello"` with the mocked scenario result,
the output contains no records at all: the sole entry is the first entry
of the first section and its `from_word.source` equals the queried text
case-insensitively, so the skip rule suppresses it. -/
theorem scenario_output_empty :
    (handleTriggerQuery "w " "enfr hello" scenarioRegistry scenarioTr pstate0).1 = [] := by
  decide

/-- C3, evaluated at the failing input: when retrieval succeeds but
returns `None`, the guard of line 171 fires, yet building the
no-results item evaluates `result.get('from_lang', '')` on `None`,
which raises; the handler therefore emits the error record (id
`translator_error`), not the no-results record. -/
theorem none_result_yields_error_record :
    (translateQuery "enfr" "hello" (fun _ _ => .ok none) pstate0).1
        = [errorItem pyNoneGetMsg]
      ∧ (errorItem pyNoneGetMsg).id = "translator_error" := by decide

/-- The headline the code builds coincides with the spec formula. -/
theorem mkResultItem_text (sIdx eIdx tIdx : Nat) (ent : Entry)
    (title url text : String) (w : ToWord) :
    (mkResultItem sIdx eIdx tIdx ent title url text w).text
      = specHeadline ((ent.from_word.getD ⟨none, none⟩).source.getD text)
          ((ent.from_word.getD ⟨none, none⟩).grammar.getD "")
          (w.meaning.getD "") (w.grammar.getD "") (w.notes.getD "") := by
  unfold mkResultItem specHeadline
  dsimp only
  rcases eq_or_ne ((ent.from_word.getD ⟨none, none⟩).grammar.getD "") "" with h1 | h1 <;>
    rcases eq_or_ne (w.grammar.getD "") "" with h2 | h2 <;>
    rcases eq_or_ne (w.notes.getD "") "" with h3 | h3 <;>
    simp [h1, h2, h3, String.append_assoc]

/-- The detail (subtext) the code builds coincides with the spec formula. -/
theorem mkResultItem_subtext (sIdx eIdx tIdx : Nat) (ent : Entry)
    (title url text : String) (w : ToWord) :
    (mkResultItem sIdx eIdx tIdx ent title url text w).subtext
      = specDetail (ent.context.getD "") (ent.from_example.getD "")
          (ent.to_example.getD []) tIdx title := by
  unfold mkResultItem specDetail
  dsimp only
  rcases eq_or_ne (ent.context.getD "") "" with h1 | h1 <;>
    rcases eq_or_ne (ent.from_example.getD "") "" with h2 | h2 <;>
    cases htx : (ent.to_example.getD [])[tIdx]? <;>
    simp [h1, h2, htx]

/-- C5: every emitted record's headline is the source word, a space and
the from-grammar only when non-empty, the arrow, the meaning, a space
and the grammar only when non-empty, and the notes in parentheses only
when non-empty — with the components taken from the record's own entry
and `to_word` element. -/
theorem record_headline_spec (sections : List Section) (text url : String) (it : Item)
    (h : it ∈ flattenSections sections text url) :
    ∃ sec ent w, sec ∈ sections ∧ ent ∈ sec.entries.getD [] ∧ w ∈ ent.to_word.getD []
      ∧ it.text = specHeadline ((ent.from_word.getD ⟨none, none⟩).source.getD text)
          ((ent.from_word.getD ⟨none, none⟩).grammar.getD "")
          (w.meaning.getD "") (w.grammar.getD "") (w.notes.getD "") := by
  obtain ⟨i, sec, j, ent, k, w, hi, hj, hk, hit⟩ := mem_flattenSections h
  exact ⟨sec, ent, w, List.getElem?_mem hi, List.getElem?_mem hj, List.getElem?_mem hk,
    by rw [hit]; exact mkResultItem_text i j k ent (titleOf i sec) url text w⟩

/-- C5 witness. -/
theorem record_headline_spec_witness :
    (claimedScenarioItem ∈ flattenSections (scenarioResult.translations.getD []) "hi" "")
      ∧ ∃ sec ent w,
          sec ∈ (scenarioResult.translations.getD [])
          ∧ ent ∈ sec.entries.getD [] ∧ w ∈ ent.to_word.getD []
          ∧ claimedScenarioItem.text
              = specHeadline ((ent.from_word.getD ⟨none, none⟩).source.getD "hi")
                  ((ent.from_word.getD ⟨none, none⟩).grammar.getD "")
                  (w.meaning.getD "") (w.grammar.getD "") (w.notes.getD "") :=
  ⟨by decide,
   record_headline_spec (scenarioResult.translations.getD []) "hi" "" claimedScenarioItem
     (by decide)⟩

/-- C6: every emitted record's detail is the entry's context as first
line when non-empty, then an example line joining `from_example` (when
present) and the `to_example` element at the record's meaning index
(when that index exists) with the separator glyph, falling back to the
section's title — or `"Section N"` when the section has no title — when
neither exists. -/
theorem record_detail_spec (sections : List Section) (text url : String) (it : Item)
    (h : it ∈ flattenSections sections text url) :
    ∃ (sIdx : Nat) (sec : Section) (eIdx : Nat) (ent : Entry) (tIdx : Nat) (w : ToWord),
      sections[sIdx]? = some sec
      ∧ (sec.entries.getD [])[eIdx]? = some ent
      ∧ (ent.to_word.getD [])[tIdx]? = some w
      ∧ it.subtext = specDetail (ent.context.getD "") (ent.from_example.getD "")
          (ent.to_example.getD []) tIdx
          (sec.title.getD ("Section " ++ toString (sIdx + 1))) := by
  obtain ⟨i, sec, j, ent, k, w, hi, hj, hk, hit⟩ := mem_flattenSections h
  exact ⟨i, sec, j, ent, k, w, hi, hj, hk,
    by rw [hit]; exact mkResultItem_subtext i j k ent (titleOf i sec) url text w⟩

/-- A concrete section with context and examples, for evaluating the
detail rule. -/
def exampleSection : Section :=
  { title := some "Principal Translations"
    entries := some
      [{ context := some "greeting"
         from_word := some ⟨some "hello", none⟩
         from_example := some "Hello there"
         to_word := some [⟨some "salut", none, none⟩]
         to_example := some ["Salut toi"] }] }

/-- The record the plugin emits for `exampleSection` under query text
`"hi"`. -/
def exampleDetailItem : Item :=
  { id := "translator_result_0_0_0"
    text := "hello → salut"
    subtext := "greeting\nHello there ⟹ Salut toi"
    inputActionText := none
    actions := [Action.mk "copy" "Copy translation" (Effect.copy "salut")] }

/-- C6 witness. -/
theorem record_detail_spec_witness :
    (exampleDetailItem ∈ flattenSections [exampleSection] "hi" "")
      ∧ ∃ (sIdx : Nat) (sec : Section) (eIdx : Nat) (ent : Entry) (tIdx : Nat) (w : ToWord),
          ([exampleSection])[sIdx]? = some sec
          ∧ (sec.entries.getD [])[eIdx]? = some ent
          ∧ (ent.to_word.getD [])[tIdx]? = some w
          ∧ exampleDetailItem.subtext
              = specDetail (ent.context.getD "") (ent.from_example.getD "")
                  (ent.to_example.getD []) tIdx
                  (sec.title.getD ("Section " ++ toString (sIdx + 1))) :=
  ⟨by decide,
   record_detail_spec [exampleSection] "hi" "" exampleDetailItem (by decide)⟩

/-- C4: an input that strips to the empty string, or whose first
whitespace-delimited token does not have length 4, or that has fewer
than two whitespace-delimited tokens, yields exactly the Usage response
— one and the same record list (`usageItems trigger`) in the empty and
in the malformed case. -/
theorem usage_on_empty_or_malformed (trigger raw : String)
    (registry : List (String × DictDetail))
    (tr : String → String → Except String (Option TranslationResult)) (st : PState)
    (h : pyStrip raw = ""
       ∨ (pySplitMax1 (pyStrip raw)).length < 2
       ∨ ((pySplitMax1 (pyStrip raw))[0]?.getD "").length ≠ 4) :
    (handleTriggerQuery trigger raw registry tr st).1 = usageItems trigger := by
  by_cases h0 : pyStrip raw = ""
  · simp [handleTriggerQuery, h0]
  · rcases h with h | h | h
    · exact absurd h h0
    · simp [handleTriggerQuery, h0, h]
    · simp [handleTriggerQuery, h0, h]

/-- C4 witness: a malformed input (single token) and an all-whitespace
input both yield the Usage response. -/
theorem usage_on_empty_or_malformed_witness :
    (pyStrip "hello" = ""
       ∨ (pySplitMax1 (pyStrip "hello")).length < 2
       ∨ ((pySplitMax1 (pyStrip "hello"))[0]?.getD "").length ≠ 4)
      ∧ (handleTriggerQuery "w " "hello" scenarioRegistry scenarioTr pstate0).1
          = usageItems "w "
      ∧ (handleTriggerQuery "w " "  " scenarioRegistry scenarioTr pstate0).1
          = usageItems "w " :=
  ⟨by decide,
   usage_on_empty_or_malformed "w " "hello" scenarioRegistry scenarioTr pstate0 (by decide),
   usage_on_empty_or_malformed "w " "  " scenarioRegistry scenarioTr pstate0 (by decide)⟩

/-- The suggestion loop started at `count = n` emits at most `10 - n`
items. -/
theorem suggestionLoop_length (trigger : String) :
    ∀ (reg : List (String × DictDetail)) (n : Nat),
      (suggestionLoop trigger reg n).length ≤ 10 - n
  | [], n => by simp [suggestionLoop]
  | (c, d) :: rest, n => by
      rw [suggestionLoop]
      split_ifs with h1 h2
      · simp
      · exact suggestionLoop_length trigger rest n
      · have := suggestionLoop_length trigger rest (n + 1)
        simp only [List.length_cons]
        omega

/-- Every suggestion item stands for a registry pair whose code is not
denylisted. -/
theorem suggestionLoop_mem (trigger : String) :
    ∀ (reg : List (String × DictDetail)) (n : Nat) (it : Item),
      it ∈ suggestionLoop trigger reg n →
      ∃ c d, (c, d) ∈ reg ∧ c ≠ "esca" ∧ c ≠ "ruen" ∧ it = pairItem trigger c d
  | [], n, it, h => absurd h (by simp [suggestionLoop])
  | (c, d) :: rest, n, it, h => by
      rw [suggestionLoop] at h
      split_ifs at h with h1 h2
      · exact absurd h (by simp)
      · obtain ⟨c', d', hm, he, hr, hi⟩ := suggestionLoop_mem trigger rest n it h
        exact ⟨c', d', List.mem_cons_of_mem _ hm, he, hr, hi⟩
      · rcases List.mem_cons.mp h with h | h
        · push_neg at h2
          exact ⟨c, d, List.mem_cons_self (c, d) rest, h2.1, h2.2, h⟩
        · obtain ⟨c', d', hm, he, hr, hi⟩ := suggestionLoop_mem trigger rest (n + 1) it h
          exact ⟨c', d', List.mem_cons_of_mem _ hm, he, hr, hi⟩

/-- C7: a parsed, well-formed code that is not a key of the registry
yields the InvalidPair response — the error record followed by at most
10 suggestions, each standing for a registry pair whose code is neither
`"esca"` nor `"ruen"`. -/
theorem invalid_pair_response (trigger raw : String)
    (registry : List (String × DictDetail))
    (tr : String → String → Except String (Option TranslationResult)) (st : PState)
    (h0 : pyStrip raw ≠ "")
    (h1 : ¬((pySplitMax1 (pyStrip raw)).length < 2
            ∨ ((pySplitMax1 (pyStrip raw))[0]?.getD "").length ≠ 4))
    (h2 : lookupDict registry (pyLower ((pySplitMax1 (pyStrip raw))[0]?.getD "")) = none) :
    (handleTriggerQuery trigger raw registry tr st).1
        = invalidPairItem (pyLower ((pySplitMax1 (pyStrip raw))[0]?.getD ""))
            :: suggestionLoop trigger registry 0
      ∧ (suggestionLoop trigger registry 0).length ≤ 10
      ∧ ∀ it ∈ suggestionLoop trigger registry 0,
          ∃ c d, (c, d) ∈ registry ∧ c ≠ "esca" ∧ c ≠ "ruen"
            ∧ it = pairItem trigger c d := by
  refine ⟨?_, suggestionLoop_length trigger registry 0,
    fun it hit => suggestionLoop_mem trigger registry 0 it hit⟩
  simp [handleTriggerQuery, h0, h1, h2, invalidPairItems]

/-- A small registry containing both denylisted codes, for the C7
witness. -/
def wRegistry : List (String × DictDetail) :=
  [("esca", ⟨"Spanish", "Catalan"⟩), ("ruen", ⟨"Russian", "English"⟩),
   ("enfr", ⟨"English", "French"⟩)]

/-- C7 witness: code `"zzzz"` against a registry that contains the
denylisted codes. -/
theorem invalid_pair_response_witness :
    (handleTriggerQuery "w " "zzzz hi" wRegistry scenarioTr pstate0).1
        = invalidPairItem (pyLower ((pySplitMax1 (pyStrip "zzzz hi"))[0]?.getD ""))
            :: suggestionLoop "w " wRegistry 0
      ∧ (suggestionLoop "w " wRegistry 0).length ≤ 10
      ∧ ∀ it ∈ suggestionLoop "w " wRegistry 0,
          ∃ c d, (c, d) ∈ wRegistry ∧ c ≠ "esca" ∧ c ≠ "ruen"
            ∧ it = pairItem "w " c d :=
  invalid_pair_response "w " "zzzz hi" wRegistry scenarioTr pstate0
    (by decide) (by decide) (by decide)

/-- A key found on the left of an append is still found after the
append. -/
theorem lookupDict_append_left {α : Type} {l : List (String × α)} {k : String} {v : α}
    (h : lookupDict l k = some v) (l2 : List (String × α)) :
    lookupDict (l ++ l2) k = some v := by
  unfold lookupDict at h ⊢
  rw [List.find?_append]
  rcases hf : l.find? (fun p => p.1 == k) with _ | p
  · rw [hf] at h; simp at h
  · rw [hf] at h; rw [hf]; simpa using h

/-- Appending a binding for an absent key makes it found. -/
theorem lookupDict_append_self {α : Type} (l : List (String × α)) (k : String) (v : α)
    (h : lookupDict l k = none) : lookupDict (l ++ [(k, v)]) k = some v := by
  unfold lookupDict at h ⊢
  rw [List.find?_append]
  rcases hf : l.find? (fun p => p.1 == k) with _ | p
  · rw [hf]; simp [List.find?]
  · rw [hf] at h; simp at h

/-- On a cache hit `getOrCreate` returns the stored session and leaves
the state unchanged. -/
theorem getOrCreate_hit {st : PState} {code : String} {s : Session}
    (h : lookupDict st.wr_instances code = some s) : getOrCreate st code = (s, st) := by
  simp [getOrCreate, h]

/-- On a cache miss `getOrCreate` constructs a fresh session and appends
it to the cache. -/
theorem getOrCreate_miss {st : PState} {code : String}
    (h : lookupDict st.wr_instances code = none) :
    getOrCreate st code
      = (⟨code, st.counter⟩,
         ⟨st.wr_instances ++ [(code, ⟨code, st.counter⟩)], st.counter + 1⟩) := by
  simp [getOrCreate, h]

/-- A `getOrCreate` call never removes or replaces an existing cache entry. -/
theorem lookup_preserved_getOrCreate {st : PState} {code s} (code' : String)
    (h : lookupDict st.wr_instances code = some s) :
    lookupDict (getOrCreate st code').2.wr_instances code = some s := by
  rcases hl : lookupDict st.wr_instances code' with _ | s'
  · rw [getOrCreate_miss hl]; exact lookupDict_append_left h _
  · rw [getOrCreate_hit hl]; exact h

/-- The `_translate` pipeline leaves the plugin state exactly as `getOrCreate` left
it, whatever the retrieval outcome. -/
theorem translateQuery_state (lang_pair text : String)
    (tr : String → String → Except String (Option TranslationResult)) (st : PState) :
    (translateQuery lang_pair text tr st).2 = (getOrCreate st lang_pair).2 := by
  cases h : tr lang_pair text with
  | error e => simp [translateQuery, h]
  | ok r =>
      cases r with
      | none => simp [translateQuery, h]
      | some r =>
          cases h2 : r.translations with
          | none => simp [translateQuery, h, h2]
          | some l => cases l <;> simp [translateQuery, h, h2]

/-- A whole `handleTriggerQuery` call never removes or replaces an
existing cache entry. -/
theorem lookup_preserved_handle (trigger raw : String)
    (registry : List (String × DictDetail))
    (tr : String → String → Except String (Option TranslationResult))
    (st : PState) (code : String) (s : Session)
    (h : lookupDict st.wr_instances code = some s) :
    lookupDict (handleTriggerQuery trigger raw registry tr st).2.wr_instances code
      = some s := by
  simp only [handleTriggerQuery]
  split_ifs with h1 h2 h3
  · exact h
  · exact h
  · exact h
  · rw [translateQuery_state]; exact lookup_preserved_getOrCreate _ h

/-- A whole run of queries never removes or replaces a cache entry. -/
theorem lookup_preserved_runQueries (trigger : String)
    (registry : List (String × DictDetail))
    (tr : String → String → Except String (Option TranslationResult)) :
    ∀ (raws : List String) (st : PState) (code : String) (s : Session),
      lookupDict st.wr_instances code = some s →
      lookupDict (runQueries trigger registry tr st raws).wr_instances code = some s
  | [], _, _, _, h => h
  | raw :: rest, st, code, s, h => by
      have h1 := lookup_preserved_handle trigger raw registry tr st code s h
      simpa [runQueries] using
        lookup_preserved_runQueries trigger registry tr rest
          (handleTriggerQuery trigger raw registry tr st).2 code s h1

/-- C8: the first lookup for a code constructs and stores a session
(and the stored entry is exactly the returned instance); a lookup for a
cached code returns the stored instance with the state unchanged; and
across any sequence of queries an entry, once present, stays present
and unchanged. -/
theorem session_cache_spec :
    (∀ (st : PState) (code : String), lookupDict st.wr_instances code = none →
        getOrCreate st code
            = (⟨code, st.counter⟩,
               ⟨st.wr_instances ++ [(code, ⟨code, st.counter⟩)], st.counter + 1⟩)
          ∧ lookupDict (getOrCreate st code).2.wr_instances code
              = some (getOrCreate st code).1)
      ∧ (∀ (st : PState) (code : String) (s : Session),
          lookupDict st.wr_instances code = some s → getOrCreate st code = (s, st))
      ∧ (∀ (trigger : String) (registry : List (String × DictDetail))
          (tr : String → String → Except String (Option TranslationResult))
          (raws : List String) (st : PState) (code : String) (s : Session),
          lookupDict st.wr_instances code = some s →
          lookupDict (runQueries trigger registry tr st raws).wr_instances code = some s) :=
  ⟨fun st code h =>
    ⟨getOrCreate_miss h,
     by rw [getOrCreate_miss h]; exact lookupDict_append_self _ _ _ h⟩,
   fun _ _ _ h => getOrCreate_hit h,
   fun trigger registry tr raws st code s h =>
     lookup_preserved_runQueries trigger registry tr raws st code s h⟩

/-- C8 witness: a first lookup for `"enfr"` stores the session, a second
one returns it unchanged, and it survives a run of further queries. -/
theorem session_cache_spec_witness :
    (getOrCreate pstate0 "enfr"
          = (⟨"enfr", 0⟩, ⟨[("enfr", ⟨"enfr", 0⟩)], 1⟩)
        ∧ lookupDict (getOrCreate pstate0 "enfr").2.wr_instances "enfr"
            = some (getOrCreate pstate0 "enfr").1)
      ∧ getOrCreate ⟨[("enfr", ⟨"enfr", 0⟩)], 1⟩ "enfr"
          = (⟨"enfr", 0⟩, ⟨[("enfr", ⟨"enfr", 0⟩)], 1⟩)
      ∧ lookupDict
          (runQueries "w " scenarioRegistry scenarioTr
            ⟨[("enfr", ⟨"enfr", 0⟩)], 1⟩ ["enfr hi", "zzzz x", "bad"]).wr_instances
          "enfr" = some ⟨"enfr", 0⟩ :=
  ⟨session_cache_spec.1 pstate0 "enfr" (by decide),
   session_cache_spec.2.1 ⟨[("enfr", ⟨"enfr", 0⟩)], 1⟩ "enfr" ⟨"enfr", 0⟩ (by decide),
   session_cache_spec.2.2 "w " scenarioRegistry scenarioTr ["enfr hi", "zzzz x", "bad"]
     ⟨[("enfr", ⟨"enfr", 0⟩)], 1⟩ "enfr" ⟨"enfr", 0⟩ (by decide)⟩

/-- C9: when retrieval raises with message `m`, the response is exactly
one error record; its detail is `m` itself (hence contains `m`) and its
single copy action's payload is exactly `m`. -/
theorem retrieval_error_response (lang_pair text m : String)
    (tr : String → String → Except String (Option TranslationResult)) (st : PState)
    (h : tr lang_pair text = .error m) :
    (translateQuery lang_pair text tr st).1 = [errorItem m]
      ∧ (errorItem m).subtext = m
      ∧ (errorItem m).actions = [Action.mk "copy" "Copy error" (Effect.copy m)] :=
  ⟨by simp [translateQuery, h], rfl, rfl⟩

/-- C9 witness: retrieval raising `"timeout"`. -/
theorem retrieval_error_response_witness :
    (translateQuery "enfr" "hello" (fun _ _ => .error "timeout") pstate0).1
        = [errorItem "timeout"]
      ∧ (errorItem "timeout").subtext = "timeout"
      ∧ (errorItem "timeout").actions
          = [Action.mk "copy" "Copy error" (Effect.copy "timeout")] :=
  retrieval_error_response "enfr" "hello" "timeout"
    (fun _ _ => .error "timeout") pstate0 rfl

/-- C10: when the session for a code is newly constructed and the
translate call then raises, the error response is emitted while the new
session stays in the cache, and a later lookup for the same code reuses
it without constructing a new one. -/
theorem error_keeps_session (st : PState) (code text m : String)
    (tr : String → String → Except String (Option TranslationResult))
    (h0 : lookupDict st.wr_instances code = none)
    (h1 : tr code text = .error m) :
    lookupDict (translateQuery code text tr st).2.wr_instances code
        = some ⟨code, st.counter⟩
      ∧ getOrCreate (translateQuery code text tr st).2 code
          = (⟨code, st.counter⟩, (translateQuery code text tr st).2)
      ∧ (translateQuery code text tr st).1 = [errorItem m] := by
  have hl : lookupDict (translateQuery code text tr st).2.wr_instances code
      = some ⟨code, st.counter⟩ := by
    rw [translateQuery_state, getOrCreate_miss h0]
    exact lookupDict_append_self _ _ _ h0
  exact ⟨hl, getOrCreate_hit hl, by simp [translateQuery, h1]⟩

/-- C10 witness. -/
theorem error_keeps_session_witness :
    lookupDict
        (translateQuery "enfr" "hello" (fun _ _ => .error "boom") pstate0).2.wr_instances
        "enfr" = some ⟨"enfr", 0⟩
      ∧ getOrCreate (translateQuery "enfr" "hello" (fun _ _ => .error "boom") pstate0).2
            "enfr"
          = (⟨"enfr", 0⟩,
             (translateQuery "enfr" "hello" (fun _ _ => .error "boom") pstate0).2)
      ∧ (translateQuery "enfr" "hello" (fun _ _ => .error "boom") pstate0).1
          = [errorItem "boom"] :=
  error_keeps_session pstate0 "enfr" "hello" "boom"
    (fun _ _ => .error "boom") (by decide) rfl

end WR

